import Mathlib

/-!
# hunit: suite loading, comparison modes and the mock REST service

A shallow embedding of

* `hunit/types.go` (the `Comparison` mode and its YAML text forms),
* `hunit/test/suite.go` (`LoadSuiteFromData`),
* `hunit/service/backend/rest/rest.go` (`routeRequest`, `handleRequest`,
  `handleResponse`),

followed by theorems about them.  Go values of type `error` are `Option Error`
(`none` is `nil`), a Go `map` that is ranged over is the list of its entries in
iteration order, and code that can panic returns a `Run`.
-/

set_option autoImplicit false

namespace HUnit

/-! ## Common -/

/-- A Go `string`. -/
abbrev GoString := String

/-- A Go `error` value is represented by its message. -/
abbrev Error := GoString

/-- The outcome of running Go code that may panic. -/
inductive Run (α : Type) where
  | returned (a : α)
  | panicked (msg : String)
  deriving Repr, DecidableEq

/-! ## `hunit/types.go` -/

/-- The Go type `Comparison` is a `uint32`. -/
structure Comparison where
  toNat : Nat
  deriving Repr, DecidableEq

def CompareLiteral : Comparison := ⟨0⟩

def CompareSemantic : Comparison := ⟨1⟩

def comparisonNames : List GoString := ["literal", "values"]

/-- Go: `func (c Comparison) String() string`. -/
def Comparison.String (c : Comparison) : GoString :=
  if c.toNat < 0 ∨ c.toNat > CompareSemantic.toNat then
    "<invalid>"
  else
    comparisonNames.getD c.toNat ""

/-- Go: `func (c Comparison) MarshalYAML() (interface{}, error)`. -/
def Comparison.MarshalYAML (c : Comparison) : GoString × Option Error :=
  (c.String, none)

/-- Go: `func (c *Comparison) UnmarshalYAML(unmarshal func(interface{}) error) error`.
The argument `unmarshal` is the outcome of `unmarshal(&s)`: the decoded text or
the decoder's error.  The result is the receiver after the call and the
returned error. -/
def Comparison.UnmarshalYAML (c : Comparison) (unmarshal : Except Error GoString) :
    Comparison × Option Error :=
  match unmarshal with
  | .error err => (c, some err)
  | .ok s =>
    if s = "literal" ∨ s = "" then
      (CompareLiteral, none)
    else if s = "smart" then
      (CompareSemantic, none)
    else
      (c, some ("Unsupported comparison type: " ++ s))

/-! ## Go dynamic values -/

/-- A Go `interface{}` value, as far as this program builds or stores one:
scalars, slices, string-keyed maps (entries in iteration order) and an opaque
library value such as `runtime.Stdlib`. -/
inductive Any where
  | null
  | bool (b : Bool)
  | int (i : Int)
  | str (s : GoString)
  | list (xs : List Any)
  | map (entries : List (GoString × Any))
  | lib (name : GoString)

/-! ## `hunit/test/test.go` -/

/-- Go: `type BasicCredentials struct`. -/
structure BasicCredentials where
  Username : GoString
  Password : GoString

/-- Go: `type Request struct`; a `map[string]string` is the list of its entries. -/
structure Request where
  Method : GoString
  URL : GoString
  Headers : List (GoString × GoString)
  Params : List (GoString × GoString)
  Entity : GoString
  Format : GoString
  BasicAuth : Option BasicCredentials

/-- Go: `type Response struct`. -/
structure Response where
  Status : Int
  Headers : List (GoString × GoString)
  Entity : GoString
  Comparison : Comparison
  Format : GoString

/-- Go: `type Case struct`; `Wait` is a `time.Duration` (an `int64`), `Vars` a
`yaml.MapSlice`. -/
structure Case where
  Id : GoString
  Wait : Int
  Repeat : Int
  Gendoc : Bool
  Title : GoString
  Comments : GoString
  Params : List (GoString × GoString)
  Request : Request
  Response : Response
  Vars : List (Any × Any)

/-- Go: `func (c Case) Documented() bool`. -/
def Case.Documented (c : Case) : Bool :=
  c.Gendoc || c.Title != "" || c.Comments != ""

/-! ## `gopkg.in/yaml.v3` nodes -/

namespace yaml

/-- Go: `type Kind uint32`. -/
abbrev Kind := Nat

def DocumentNode : Kind := 1
def SequenceNode : Kind := 2
def MappingNode : Kind := 4
def ScalarNode : Kind := 8
def AliasNode : Kind := 16

/-- Go: `type Node struct`, with the fields the loader reads and the scalar's
text.  The zero `Node` has kind `0` and no content. -/
inductive Node where
  | mk (Kind : Kind) (Value : GoString) (Content : List Node)

def Node.Kind : Node → Kind
  | .mk k _ _ => k

def Node.Value : Node → GoString
  | .mk _ v _ => v

def Node.Content : Node → List Node
  | .mk _ _ c => c

/-- The value of `&yaml.Node{}`. -/
def Node.zero : Node := .mk 0 "" []

end yaml

/-! ## `hunit/test/suite.go` -/

def errMalformedSuite : Error := "Malformed suite"

/-- Go: the anonymous struct `Config.Net`. -/
structure ConfigNet where
  StreamIOGracePeriod : Int
  deriving DecidableEq

/-- Go: the anonymous struct `Config.Doc`.  The type `AnchorStyle` is declared in
a file that is not part of the sources at hand, so it is a parameter. -/
structure ConfigDoc (AnchorStyle : Type) where
  AnchorStyle : AnchorStyle
  FormatEntities : Bool
  IncludeRequestHTTP : Bool
  IncludeResponseHTTP : Bool
  IncludeHTTP : Bool
  deriving DecidableEq

/-- Go: `type Config struct`. -/
structure Config (AnchorStyle : Type) where
  Net : ConfigNet
  Doc : ConfigDoc AnchorStyle
  deriving DecidableEq

/-- Go: `type Dependencies struct`. -/
structure Dependencies where
  Resources : List GoString
  Timeout : Int

/-- Go: `type Suite struct`.  `exec.Command` belongs to a package that is not part
of the sources at hand, so it is a parameter; a pointer is an `Option`. -/
structure Suite (AnchorStyle Command : Type) where
  Title : GoString
  Comments : GoString
  Cases : List Case
  Config : Config AnchorStyle
  Setup : List (Option Command)
  Teardown : List (Option Command)
  Exec : Option Command
  Deps : Option Dependencies

/-- The operations of `gopkg.in/yaml.v3` that `LoadSuiteFromData` calls; the
`[]byte` of a document is the string of its bytes.
* `Unmarshal data` is `yaml.Unmarshal(data, node)` for a fresh `node`: the error,
  or the node as the call leaves it (the zero node when the input holds no
  document).
* `DecodeCases n` is `n.Decode(&suite.Cases)` for the nil slice: what the slice
  holds afterwards, and the error.
* `DecodeSuite n s` is `n.Decode(suite)`: the suite afterwards, and the error. -/
structure YamlLib (AnchorStyle Command : Type) where
  Unmarshal : GoString → Except Error yaml.Node
  DecodeCases : yaml.Node → List Case × Option Error
  DecodeSuite : yaml.Node → Suite AnchorStyle Command →
    Suite AnchorStyle Command × Option Error

section LoadSuite

variable {AnchorStyle Command : Type}

/-- Lines 70 to 88 of `LoadSuiteFromData`: the locals `suite` and `err` as they
stand just before `*conf = suite.Config`, or the panic of `node.Content[0]`, or
the early return of the decoder's error. -/
def LoadSuiteFromData.locals (yml : YamlLib AnchorStyle Command)
    (conf : Config AnchorStyle) (data : GoString) :
    Except Error (Run (Suite AnchorStyle Command × Option Error)) :=
  match yml.Unmarshal data with
  | .error err => .error err
  | .ok node =>
    let err : Option Error :=
      if node.Kind ≠ yaml.DocumentNode ∨ node.Content.length < 1 then
        some errMalformedSuite
      else
        none
    match node.Content with
    | [] => .ok (.panicked "runtime error: index out of range [0] with length 0")
    | node :: _ =>
      let _ := err
      let suite : Suite AnchorStyle Command :=
        { Title := "", Comments := "", Cases := [], Config := conf,
          Setup := [], Teardown := [], Exec := none, Deps := none }
      if node.Kind = yaml.SequenceNode then
        let r := yml.DecodeCases node
        .ok (.returned ({ suite with Cases := r.1 }, r.2))
      else if node.Kind = yaml.MappingNode then
        .ok (.returned (yml.DecodeSuite node suite))
      else
        .ok (.returned (suite, some errMalformedSuite))

/-- Go: `func LoadSuiteFromData(conf *Config, data []byte) (*Suite, error)`.
The result is the pair returned (or the panic) together with the value of
`*conf` afterwards. -/
def LoadSuiteFromData (yml : YamlLib AnchorStyle Command)
    (conf : Config AnchorStyle) (data : GoString) :
    Run (Option (Suite AnchorStyle Command) × Option Error) × Config AnchorStyle :=
  match LoadSuiteFromData.locals yml conf data with
  | .error err => (.returned (none, some err), conf)
  | .ok (.panicked msg) => (.panicked msg, conf)
  | .ok (.returned (suite, _)) => (.returned (some suite, none), suite.Config)

end LoadSuite

/-- Go: `func coalesce(err ...error) error`. -/
def coalesce : List (Option Error) → Option Error
  | [] => none
  | some e :: _ => some e
  | none :: rest => coalesce rest

/-! ## `net/http`, `net/url` and `go-router` values -/

/-- Go: `http.Header` and `url.Values`, both `map[string][]string`. -/
abbrev Values := List (GoString × List GoString)

/-- The value stored under a key, if any. -/
def Values.Get (h : Values) (k : GoString) : Option (List GoString) :=
  (h.find? (fun e => e.1 == k)).map (fun e => e.2)

/-- Go: `h[k] = []string{v}`. -/
def Values.Put (h : Values) (k v : GoString) : Values :=
  h.filter (fun e => e.1 != k) ++ [(k, [v])]

/-- Go: `func (h Header) Set(key, value string)`, which stores the value under
the canonical form of the key; `canon` is `textproto.CanonicalMIMEHeaderKey`. -/
def Values.SetHeader (canon : GoString → GoString) (h : Values) (k v : GoString) :
    Values :=
  h.Put (canon k) v

/-- An inbound `*http.Request`, with the fields the service reads.  `Body` is
what reading the body to its end yields: the bytes, or the read error. -/
structure HttpRequest where
  Method : GoString
  Path : GoString
  RawQuery : GoString
  ContentLength : Int
  Header : Values
  Body : Except Error GoString

/-- An `http.ResponseWriter`, as a record of the calls made on it: the header
map, the status passed to `WriteHeader` (if it was called) and the bytes
written. -/
structure ResponseWriter where
  Header : Values
  Status : Option Int
  Body : GoString
  deriving DecidableEq

/-- A response writer nothing was written to. -/
def ResponseWriter.fresh : ResponseWriter :=
  { Header := [], Status := none, Body := "" }

/-- Go: `router.Response` (`Status`, `Header`, `Entity`). -/
structure RouterResponse where
  Status : Int
  Header : Values
  Entity : Option GoString
  deriving DecidableEq

/-- Go: `router.Context`; `Vars` holds the route's capture bindings. -/
structure Context where
  Vars : List (GoString × GoString)

/-- Go: `expr.Variables`, a `map[string]interface{}`. -/
abbrev Variables := List (GoString × Any)

def Variables.Get (vars : Variables) (k : GoString) : Option Any :=
  (vars.find? (fun e => e.1 == k)).map (fun e => e.2)

/-- Go: `vars[k] = v`. -/
def Variables.Put (vars : Variables) (k : GoString) (v : Any) : Variables :=
  vars.filter (fun e => e.1 != k) ++ [(k, v)]

/-! ## Endpoints of the mock service

The declarations of `Endpoint` and of the service's `Suite` are in files of the
package that are not part of the sources at hand; the fields are those that
`rest.go` reads. -/

/-- The request matcher of an endpoint: `e.Request`. -/
structure EndpointRequest where
  Path : GoString
  Methods : List GoString
  Params : List (GoString × GoString)

/-- The response template of an endpoint: `e.Response`. -/
structure EndpointResponse where
  Status : Int
  Headers : List (GoString × GoString)
  Entity : GoString

structure Endpoint where
  Request : Option EndpointRequest
  Response : Option EndpointResponse

/-- A route registered by `r.Add(path, handler(e)).Methods(...).Params(...)`. -/
structure Route where
  Path : GoString
  Methods : List GoString
  Params : Values
  Endpoint : Endpoint

/-- What `router.Handle` does with a request: it runs the handler registered
for one endpoint with the context of the match, or it answers by itself (its
not-found response, or an error). -/
inductive Dispatch where
  | handler (e : Endpoint) (cxt : Context)
  | direct (res : Except Error RouterResponse)

/-- The library operations `rest.go` calls.
* `canon` is `textproto.CanonicalMIMEHeaderKey`;
* `Query req` is `req.URL.Query()`;
* `ParseForm req` is `req.ParseForm()`: the error, or `req.Form` afterwards;
* `Interpolate` is `expr.Interpolate`;
* `Dispatch` is the route lookup of `router.Handle`. -/
structure Lib where
  canon : GoString → GoString
  Query : HttpRequest → Values
  ParseForm : HttpRequest → Except Error Values
  Interpolate : GoString → Variables → Except Error GoString
  Dispatch : List Route → HttpRequest → Dispatch

/-- A call that prints to standard output, with the values it prints. -/
inductive Trace where
  | request (method path : GoString) (length : Option Int)
  | requestBody (data : GoString)
  | response (status : Int) (method path query : GoString) (length : Nat)
  | responseBody (e : GoString)
  | couldNotHandle (err : Error)

/-! ## `hunit/service/backend/rest/rest.go` -/

def statusMethod : GoString := "GET"

def statusPath : GoString := "/_instaunit/status"

/-- Go: `type restService struct`, with the fields the request path reads: the
routing table and the variables shared by all handlers. -/
structure restService where
  router : List Route
  vars : Variables

/-- Go: `func convertParams(p map[string]string) url.Values`. -/
def convertParams (p : List (GoString × GoString)) : Values :=
  if p.length > 0 then
    p.foldl (fun r kv => r.Put kv.1 kv.2) []
  else
    []

/-- Go: `func New(conf service.Config) (service.Service, error)`, from the loaded
suite's endpoints on. -/
def New (endpoints : List Endpoint) : restService :=
  { router := endpoints.filterMap (fun e =>
      e.Request.map (fun q =>
        { Path := q.Path, Methods := q.Methods, Params := convertParams q.Params,
          Endpoint := e }))
    vars := [("std", Any.lib "runtime.Stdlib")] }

/-- Go: `func NewResponse(status int) *Response` of `go-router`. -/
def NewResponse (status : Int) : RouterResponse :=
  { Status := status, Header := [], Entity := none }

/-- Go: `func (r *Response) SetHeader(k, v string)` of `go-router`. -/
def RouterResponse.SetHeader (canon : GoString → GoString) (x : RouterResponse)
    (k v : GoString) : RouterResponse :=
  { x with Header := x.Header.SetHeader canon k v }

/-- Go: `func (r *Response) SetStringEntity(t, d string)` of `go-router`: the
content type and the entity. -/
def RouterResponse.SetStringEntity (canon : GoString → GoString) (x : RouterResponse)
    (t d : GoString) : RouterResponse :=
  { x with Header := x.Header.SetHeader canon "Content-Type" t, Entity := some d }

/-- Go: `strconv.FormatInt(i, 10)`. -/
def FormatInt (i : Int) : GoString := toString i

/-- The first value of every key that has one: the loops that fill `cparams`
and `cform`. -/
def firstValues (vs : Values) : List (GoString × Any) :=
  vs.filterMap (fun kv =>
    match kv.2 with
    | [] => none
    | v :: _ => some (kv.1, Any.str v))

/-- The query suffix printed by the deferred trace of `handleRequest`. -/
def queryText (req : HttpRequest) : GoString :=
  if req.RawQuery.utf8ByteSize > 0 then "?" ++ req.RawQuery else ""

/-- The deferred function of `handleRequest`, which runs when `debug.VERBOSE` is
set and the endpoint has a response template; `e` is the entity at return. -/
def handleRequest.deferred (verbose : Bool) (req : HttpRequest) (r : EndpointResponse)
    (e : GoString) : List Trace :=
  if verbose then
    Trace.response r.Status req.Method req.Path (queryText req) e.utf8ByteSize ::
      (if e.utf8ByteSize > 0 then [Trace.responseBody e] else [])
  else
    []

/-- The value `handleRequest` stores under `"request"`: the maps `cvars`
(route captures), `cparams` (first value of each query parameter) and `cform`
(first value of each form field). -/
def handleRequest.scope (lib : Lib) (req : HttpRequest) (cxt : Context)
    (form : Values) : Any :=
  let cvars : List (GoString × Any) := cxt.Vars.map (fun kv => (kv.1, Any.str kv.2))
  let cparams := firstValues (lib.Query req)
  let cform := firstValues form
  Any.map [("vars", Any.map cvars), ("params", Any.map cparams), ("form", Any.map cform)]

/-- Go: `func handleRequest(req *http.Request, cxt router.Context, endpoint Endpoint,
vars expr.Variables) (*router.Response, error)`.  `vars` is a Go map, so the
caller sees the assignments made to it: the result carries the map after the
call, and what was printed. -/
def handleRequest (lib : Lib) (verbose : Bool) (req : HttpRequest) (cxt : Context)
    (endpoint : Endpoint) (vars : Variables) :
    Except Error RouterResponse × Variables × List Trace :=
  match endpoint.Response with
  | none => (.ok (NewResponse 200), vars, [])
  | some r =>
    match lib.ParseForm req with
    | .error err => (.error err, vars, handleRequest.deferred verbose req r "")
    | .ok form =>
      let vars := vars.Put "request" (handleRequest.scope lib req cxt form)
      match lib.Interpolate r.Entity vars with
      | .error err => (.error err, vars, handleRequest.deferred verbose req r "")
      | .ok e =>
        let x := NewResponse r.Status
        let x :=
          if e.utf8ByteSize > 0 then
            (x.SetStringEntity lib.canon "binary/octet-stream" e).SetHeader lib.canon
              "Content-Length" (FormatInt (Int.ofNat e.utf8ByteSize))
          else
            x
        let x := r.Headers.foldl (fun x kv => x.SetHeader lib.canon kv.1 kv.2) x
        (.ok x, vars, handleRequest.deferred verbose req r e)

/-- The first loop of `handleResponse`: `rsp.Header().Set(k, v[0])` for every
entry of the response's header; `v[0]` panics on an entry without values. -/
def handleResponse.headers (canon : GoString → GoString) :
    Values → Values → Run Values
  | [], h => .returned h
  | (_, []) :: _, _ => .panicked "runtime error: index out of range [0] with length 0"
  | (k, v :: _) :: rest, h => handleResponse.headers canon rest (h.SetHeader canon k v)

/-- Go: `func handleResponse(rsp http.ResponseWriter, req *http.Request,
res *router.Response)`. -/
def handleResponse (canon : GoString → GoString) (rsp : ResponseWriter)
    (res : RouterResponse) : Run ResponseWriter :=
  match handleResponse.headers canon res.Header rsp.Header with
  | .panicked msg => .panicked msg
  | .returned h =>
    let rsp := { rsp with Header := h }
    let rsp : ResponseWriter :=
      if res.Status ≠ 0 then { rsp with Status := some res.Status }
      else { rsp with Status := some 200 }
    match res.Entity with
    | none => .returned rsp
    | some e => .returned { rsp with Body := rsp.Body ++ e }

/-- The `debug.VERBOSE` block that opens `routeRequest`: what it prints, and the
request the rest of the function goes on with (`req.Body` is replaced by a
buffer of the bytes read), or `none` when the block returns from
`routeRequest`. -/
def routeRequest.trace (verbose : Bool) (req : HttpRequest) :
    List Trace × Option HttpRequest :=
  if verbose then
    let dlen : Option Int := if req.ContentLength < 0 then none else some req.ContentLength
    let out := [Trace.request req.Method req.Path dlen]
    if req.ContentLength > 0 then
      match req.Body with
      | .error err => (out ++ [Trace.couldNotHandle err], none)
      | .ok data => (out ++ [Trace.requestBody data], some { req with Body := .ok data })
    else
      (out, some req)
  else
    ([], some req)

/-- Go: `s.router.Handle((*router.Request)(req))`, the handlers being the
closures `handleRequest(req, cxt, e, vars)` that `New` registered. -/
def restService.handle (lib : Lib) (verbose : Bool) (s : restService)
    (req : HttpRequest) : Except Error RouterResponse × Variables × List Trace :=
  match lib.Dispatch s.router req with
  | .handler e cxt => handleRequest lib verbose req cxt e s.vars
  | .direct res => (res, s.vars, [])

/-- What one call of `routeRequest` leaves behind: the response writer (or the
panic), the shared variables, whether the router was asked, and the output. -/
structure Served where
  rsp : Run ResponseWriter
  vars : Variables
  routed : Bool
  out : List Trace

/-- Go: `func (s *restService) routeRequest(rsp http.ResponseWriter,
req *http.Request)`; `verbose` is `debug.VERBOSE`. -/
def restService.routeRequest (lib : Lib) (verbose : Bool) (s : restService)
    (rsp : ResponseWriter) (req : HttpRequest) : Served :=
  match routeRequest.trace verbose req with
  | (out, none) => { rsp := .returned rsp, vars := s.vars, routed := false, out := out }
  | (out, some req) =>
    if req.Method = statusMethod ∧ req.Path = statusPath then
      let h := rsp.Header.SetHeader lib.canon "Server" "HUnit/1"
      let h := h.SetHeader lib.canon "Content-Type" "text/plain; charset=utf-8"
      { rsp := .returned { rsp with Header := h, Status := some 200 }
        vars := s.vars, routed := false, out := out }
    else
      match s.handle lib verbose req with
      | (.error err, vars, out2) =>
        { rsp := .returned rsp, vars := vars, routed := true
          out := out ++ out2 ++ [Trace.couldNotHandle err] }
      | (.ok res, vars, out2) =>
        { rsp := handleResponse lib.canon rsp res, vars := vars, routed := true
          out := out ++ out2 }

/-! ## Library instances for concrete evaluation -/

/-- Go: `validHeaderFieldByte` of `net/textproto`: the token characters. -/
def validHeaderFieldByte (c : Char) : Bool :=
  c.isAlphanum || "!#$%&*+-.^_|~".toList.contains c || c.toNat == 39 || c.toNat == 96

/-- The case-folding pass of `canonicalMIMEHeaderKey`: upper case at the start
and after each dash, lower case elsewhere. -/
def canonicalize : Bool → List Char → List Char
  | _, [] => []
  | upper, c :: cs =>
    let c := if upper then c.toUpper else c.toLower
    c :: canonicalize (c == '-') cs

/-- Go: `textproto.CanonicalMIMEHeaderKey`: a key with a byte that is not a token
character is returned as it is. -/
def CanonicalMIMEHeaderKey (s : GoString) : GoString :=
  if s.toList.all validHeaderFieldByte then String.mk (canonicalize true s.toList) else s

/-- A stand-in for the libraries on the few requests the examples use: no query,
an empty form, an entity template taken literally, and a router that knows the
first route's endpoint for every path but `"/missing"`. -/
def exampleLib : Lib :=
  { canon := CanonicalMIMEHeaderKey
    Query := fun _ => []
    ParseForm := fun _ => .ok []
    Interpolate := fun t _ => .ok t
    Dispatch := fun routes req =>
      match routes with
      | r :: _ =>
        if req.Path = "/missing" then .direct (.ok (NewResponse 404))
        else .handler r.Endpoint { Vars := [] }
      | [] => .direct (.ok (NewResponse 404)) }

/-- The suite `&Suite{Config: *conf}`. -/
def initialSuite {AnchorStyle Command : Type} (conf : Config AnchorStyle) :
    Suite AnchorStyle Command :=
  { Title := "", Comments := "", Cases := [], Config := conf,
    Setup := [], Teardown := [], Exec := none, Deps := none }

/-- The zero value of `Case`. -/
def Case.zero : Case :=
  { Id := "", Wait := 0, Repeat := 0, Gendoc := false, Title := "", Comments := "",
    Params := [],
    Request := { Method := "", URL := "", Headers := [], Params := [], Entity := "",
                 Format := "", BasicAuth := none },
    Response := { Status := 0, Headers := [], Entity := "", Comparison := CompareLiteral,
                  Format := "" },
    Vars := [] }

/-- A stand-in for the YAML library on the few documents the examples use: the
empty input (no document, the node stays zero), the scalar `hello`, the
sequences `[]` and `- {}`, and a mapping that sets one option. -/
def exampleYaml : YamlLib Nat Unit :=
  { Unmarshal := fun data =>
      if data = "" then .ok yaml.Node.zero
      else if data = "hello" then
        .ok (.mk yaml.DocumentNode "" [.mk yaml.ScalarNode "hello" []])
      else if data = "[]" then
        .ok (.mk yaml.DocumentNode "" [.mk yaml.SequenceNode "" []])
      else if data = "- \x7b\x7d" then
        .ok (.mk yaml.DocumentNode "" [.mk yaml.SequenceNode "" [.mk yaml.MappingNode "" []]])
      else if data = "options: \x7bdoc-include-http: true\x7d" then
        .ok (.mk yaml.DocumentNode "" [.mk yaml.MappingNode ""
          [.mk yaml.ScalarNode "options" [],
           .mk yaml.MappingNode "" [.mk yaml.ScalarNode "doc-include-http" [],
                                    .mk yaml.ScalarNode "true" []]]])
      else .error "yaml: document not known to the example"
    DecodeCases := fun n => (n.Content.map (fun _ => Case.zero), none)
    DecodeSuite := fun n s =>
      match n.Content with
      | [k, v] =>
        if k.Value = "options" then
          match v.Content with
          | [k2, v2] =>
            if k2.Value = "doc-include-http" ∧ v2.Value = "true" then
              ({ s with Config := { s.Config with
                  Doc := { s.Config.Doc with IncludeHTTP := true } } }, none)
            else (s, none)
          | _ => (s, none)
        else (s, none)
      | _ => (s, none) }

/-- A base configuration for the examples. -/
def exampleConfig : Config Nat :=
  { Net := { StreamIOGracePeriod := 0 },
    Doc := { AnchorStyle := 0, FormatEntities := true, IncludeRequestHTTP := false,
             IncludeResponseHTTP := false, IncludeHTTP := false } }

/-- The example configuration with `doc-include-http` set. -/
def exampleConfigHTTP : Config Nat :=
  { exampleConfig with Doc := { exampleConfig.Doc with IncludeHTTP := true } }

/-- The suite the example mapping document loads as. -/
def exampleSuiteHTTP : Suite Nat Unit :=
  { initialSuite exampleConfig with Config := exampleConfigHTTP }

/-- A request for the examples: `GET /hello`, no body. -/
def exampleRequest : HttpRequest :=
  { Method := "GET", Path := "/hello", RawQuery := "", ContentLength := 0, Header := [],
    Body := .ok "" }

/-- An endpoint for the examples: `GET /hello` answers `hi` with one declared
header. -/
def exampleEndpoint : Endpoint :=
  { Request := some { Path := "/hello", Methods := ["GET"], Params := [] }
    Response := some { Status := 200, Headers := [("X-Test", "1")], Entity := "hi" } }

/-- An endpoint whose template declares its own `Content-Length`. -/
def lengthEndpoint : Endpoint :=
  { Request := some { Path := "/hello", Methods := ["GET"], Params := [] }
    Response := some { Status := 200, Headers := [("Content-Length", "0")],
                       Entity := "hi" } }

/-- A liveness probe that declares five bytes of body and breaks off before
sending them. -/
def brokenProbe : HttpRequest :=
  { Method := "GET", Path := "/_instaunit/status", RawQuery := "", ContentLength := 5,
    Header := [], Body := .error "unexpected EOF" }

/-- A request to `/hello` that declares five bytes of body and breaks off before
sending them. -/
def brokenRequest : HttpRequest :=
  { Method := "GET", Path := "/hello", RawQuery := "", ContentLength := 5,
    Header := [], Body := .error "unexpected EOF" }

/-! ## Theorems: `hunit/types.go` -/

/-- C2: for every text `s`, `UnmarshalYAML` succeeds exactly when `s` is
`"literal"`, `""` or `"smart"`; it stores `CompareLiteral` for the first two and
`CompareSemantic` for the third; for every other text it returns an error and
leaves the receiver as it was; and a successful call always leaves one of the
two variants in the receiver. -/
theorem unmarshalYAML_contract (c : Comparison) (s : String) :
    (((c.UnmarshalYAML (.ok s)).2 = none) ↔ (s = "literal" ∨ s = "" ∨ s = "smart"))
    ∧ ((s = "literal" ∨ s = "") → c.UnmarshalYAML (.ok s) = (CompareLiteral, none))
    ∧ (s = "smart" → c.UnmarshalYAML (.ok s) = (CompareSemantic, none))
    ∧ (¬ (s = "literal" ∨ s = "" ∨ s = "smart") →
        (c.UnmarshalYAML (.ok s)).1 = c ∧ (c.UnmarshalYAML (.ok s)).2 ≠ none)
    ∧ ((c.UnmarshalYAML (.ok s)).2 = none →
        (c.UnmarshalYAML (.ok s)).1 = CompareLiteral
          ∨ (c.UnmarshalYAML (.ok s)).1 = CompareSemantic) := by
  unfold Comparison.UnmarshalYAML
  by_cases h1 : s = "literal" ∨ s = ""
  · have h3 : s = "literal" ∨ s = "" ∨ s = "smart" := by tauto
    simp [h1, h3]
    rcases h1 with h | h <;> subst h <;> decide
  · by_cases h2 : s = "smart"
    · subst h2
      simp
    · have h3 : ¬ (s = "literal" ∨ s = "" ∨ s = "smart") := by tauto
      simp [h1, h2, h3]

/-- C9, on the code: the round trip through `MarshalYAML` and `UnmarshalYAML`
gives `CompareLiteral` back, but `CompareSemantic` is written as `"values"`, a
text `UnmarshalYAML` rejects, leaving the receiver (here `CompareLiteral`) as it
was. -/
theorem marshal_unmarshal_semantic_fails :
    CompareLiteral.MarshalYAML = ("literal", none)
    ∧ CompareSemantic.UnmarshalYAML (.ok CompareLiteral.MarshalYAML.1)
        = (CompareLiteral, none)
    ∧ CompareSemantic.MarshalYAML = ("values", none)
    ∧ CompareLiteral.UnmarshalYAML (.ok CompareSemantic.MarshalYAML.1)
        = (CompareLiteral, some "Unsupported comparison type: values") := by
  refine ⟨by decide, by decide, by decide, by decide⟩

/-! ## Theorems: `hunit/test/suite.go` -/

section LoadSuiteTheorems

variable {AnchorStyle Command : Type}

/-- C1, on the code: whatever the top-level node of the document is, if it is
neither a sequence nor a mapping the loader sets its local `err` to
`errMalformedSuite` and then returns the suite with a nil error. -/
theorem loadSuite_other_kind_returns_nil_error (yml : YamlLib AnchorStyle Command)
    (conf : Config AnchorStyle) (data : GoString) (node top : yaml.Node)
    (rest : List yaml.Node)
    (hu : yml.Unmarshal data = .ok node) (hc : node.Content = top :: rest)
    (hs : top.Kind ≠ yaml.SequenceNode) (hm : top.Kind ≠ yaml.MappingNode) :
    LoadSuiteFromData.locals yml conf data
        = .ok (.returned (initialSuite conf, some errMalformedSuite))
    ∧ LoadSuiteFromData yml conf data
        = (.returned (some (initialSuite conf), none), conf) := by
  have hl : LoadSuiteFromData.locals yml conf data
      = .ok (.returned (initialSuite conf, some errMalformedSuite)) := by
    simp [LoadSuiteFromData.locals, hu, hc, hs, hm, initialSuite]
  exact ⟨hl, by simp [LoadSuiteFromData, hl, initialSuite]⟩

/-- The document `hello`, a bare scalar, loads with a nil error. -/
theorem loadSuite_other_kind_returns_nil_error_witness :
    LoadSuiteFromData.locals exampleYaml exampleConfig "hello"
        = .ok (.returned (initialSuite exampleConfig, some errMalformedSuite))
    ∧ LoadSuiteFromData exampleYaml exampleConfig "hello"
        = (.returned (some (initialSuite exampleConfig), none), exampleConfig) :=
  loadSuite_other_kind_returns_nil_error exampleYaml exampleConfig "hello"
    (.mk yaml.DocumentNode "" [.mk yaml.ScalarNode "hello" []])
    (.mk yaml.ScalarNode "hello" []) [] rfl rfl (by decide) (by decide)

/-- C10, on the code: when the decoder succeeds and leaves a node without
content, the guard on `len(node.Content)` does not return and
`node.Content[0]` panics; `*conf` is not written. -/
theorem loadSuite_no_content_panics (yml : YamlLib AnchorStyle Command)
    (conf : Config AnchorStyle) (data : GoString) (node : yaml.Node)
    (hu : yml.Unmarshal data = .ok node) (hc : node.Content = []) :
    LoadSuiteFromData yml conf data
      = (.panicked "runtime error: index out of range [0] with length 0", conf) := by
  simp [LoadSuiteFromData, LoadSuiteFromData.locals, hu, hc]

/-- The empty input leaves the zero node, and loading it panics. -/
theorem loadSuite_no_content_panics_witness :
    LoadSuiteFromData exampleYaml exampleConfig ""
      = (.panicked "runtime error: index out of range [0] with length 0", exampleConfig) :=
  loadSuite_no_content_panics exampleYaml exampleConfig "" yaml.Node.zero rfl rfl

/-- What `LoadSuiteFromData` returns for a document whose top-level node is a
sequence. -/
theorem LoadSuiteFromData_sequence (yml : YamlLib AnchorStyle Command)
    (conf : Config AnchorStyle) (data : GoString) (node top : yaml.Node)
    (rest : List yaml.Node)
    (hu : yml.Unmarshal data = .ok node) (hc : node.Content = top :: rest)
    (hs : top.Kind = yaml.SequenceNode) :
    LoadSuiteFromData yml conf data
      = (.returned (some { Title := "", Comments := "", Cases := (yml.DecodeCases top).1,
                           Config := conf, Setup := [], Teardown := [], Exec := none,
                           Deps := none }, none), conf) := by
  simp [LoadSuiteFromData, LoadSuiteFromData.locals, hu, hc, hs]

/-- C6: loading a document whose top-level node is a sequence returns, with a nil
error, a suite whose `Cases` are what the sequence decodes to, whose `Config`
is the base configuration and whose other fields are empty; and the caller's
configuration is the base configuration afterwards. -/
theorem loadSuite_bare_sequence (yml : YamlLib AnchorStyle Command)
    (conf : Config AnchorStyle) (data : GoString) (node top : yaml.Node)
    (rest : List yaml.Node)
    (hu : yml.Unmarshal data = .ok node) (hc : node.Content = top :: rest)
    (hs : top.Kind = yaml.SequenceNode) :
    ∃ suite : Suite AnchorStyle Command,
      LoadSuiteFromData yml conf data = (.returned (some suite, none), conf)
      ∧ suite.Cases = (yml.DecodeCases top).1 ∧ suite.Config = conf
      ∧ suite.Title = "" ∧ suite.Comments = "" ∧ suite.Setup = []
      ∧ suite.Teardown = [] ∧ suite.Exec = none ∧ suite.Deps = none := by
  exact ⟨_, LoadSuiteFromData_sequence yml conf data node top rest hu hc hs,
    rfl, rfl, rfl, rfl, rfl, rfl, rfl, rfl⟩

/-- The document `- {}` loads as one zero-valued case under the base
configuration. -/
theorem loadSuite_bare_sequence_witness :
    ∃ suite : Suite Nat Unit,
      LoadSuiteFromData exampleYaml exampleConfig "- \x7b\x7d"
        = (.returned (some suite, none), exampleConfig)
      ∧ suite.Cases = [Case.zero] ∧ suite.Config = exampleConfig
      ∧ suite.Title = "" ∧ suite.Comments = "" ∧ suite.Setup = []
      ∧ suite.Teardown = [] ∧ suite.Exec = none ∧ suite.Deps = none :=
  loadSuite_bare_sequence exampleYaml exampleConfig "- \x7b\x7d"
    (.mk yaml.DocumentNode "" [.mk yaml.SequenceNode "" [.mk yaml.MappingNode "" []]])
    (.mk yaml.SequenceNode "" [.mk yaml.MappingNode "" []]) [] rfl rfl rfl

/-- What `LoadSuiteFromData` returns for a document whose top-level node is a
mapping: the suite as `node.Decode(suite)` left it, and its `Config` written
back. -/
theorem LoadSuiteFromData_mapping (yml : YamlLib AnchorStyle Command)
    (conf : Config AnchorStyle) (data : GoString) (node top : yaml.Node)
    (rest : List yaml.Node)
    (hu : yml.Unmarshal data = .ok node) (hc : node.Content = top :: rest)
    (hm : top.Kind = yaml.MappingNode) :
    LoadSuiteFromData yml conf data
      = (.returned (some (yml.DecodeSuite top (initialSuite conf)).1, none),
         (yml.DecodeSuite top (initialSuite conf)).1.Config) := by
  have hq : ¬ top.Kind = yaml.SequenceNode := by rw [hm]; decide
  simp only [LoadSuiteFromData, LoadSuiteFromData.locals, hu, hc, hq, if_false]
  rw [if_pos hm]
  rfl

/-- What `LoadSuiteFromData` returns for a document whose top-level node is
neither a sequence nor a mapping. -/
theorem LoadSuiteFromData_other (yml : YamlLib AnchorStyle Command)
    (conf : Config AnchorStyle) (data : GoString) (node top : yaml.Node)
    (rest : List yaml.Node)
    (hu : yml.Unmarshal data = .ok node) (hc : node.Content = top :: rest)
    (hq : top.Kind ≠ yaml.SequenceNode) (hm : top.Kind ≠ yaml.MappingNode) :
    LoadSuiteFromData yml conf data
      = (.returned (some (initialSuite conf), none), conf) := by
  simp [LoadSuiteFromData, LoadSuiteFromData.locals, hu, hc, hq, hm, initialSuite]

/-- A load that returns a suite decoded a document with a top-level node. -/
theorem LoadSuiteFromData_returned (yml : YamlLib AnchorStyle Command)
    (conf conf1 : Config AnchorStyle) (data : GoString) (s1 : Suite AnchorStyle Command)
    (h1 : LoadSuiteFromData yml conf data = (.returned (some s1, none), conf1)) :
    ∃ node top rest, yml.Unmarshal data = .ok node ∧ node.Content = top :: rest := by
  unfold LoadSuiteFromData LoadSuiteFromData.locals at h1
  cases hU : yml.Unmarshal data with
  | error err => simp [hU] at h1
  | ok node =>
    cases hC : node.Content with
    | nil => simp [hU, hC] at h1
    | cons top rest => exact ⟨node, top, rest, rfl, hC⟩

/-- C7: a load that returned a suite with a nil error decoded a document with a
top-level node, the returned suite is what that node resolved to from the
caller's configuration (for a mapping, what `node.Decode(suite)` left in the
suite that started as `&Suite{Config: *conf}`), and the caller's configuration
afterwards is that suite's resolved `Config`; loading a bare-sequence document
with that configuration then returns a suite with the same `Config` and leaves
the configuration as it is. -/
theorem loadSuite_config_propagates (yml : YamlLib AnchorStyle Command)
    (conf conf1 : Config AnchorStyle) (d1 d2 : GoString)
    (s1 : Suite AnchorStyle Command) (node2 top2 : yaml.Node) (rest2 : List yaml.Node)
    (h1 : LoadSuiteFromData yml conf d1 = (.returned (some s1, none), conf1))
    (hu : yml.Unmarshal d2 = .ok node2) (hc : node2.Content = top2 :: rest2)
    (hs : top2.Kind = yaml.SequenceNode) :
    (∃ node1 top1 rest1, yml.Unmarshal d1 = .ok node1 ∧ node1.Content = top1 :: rest1
      ∧ s1 = (if top1.Kind = yaml.SequenceNode then
                { initialSuite conf with Cases := (yml.DecodeCases top1).1 }
              else if top1.Kind = yaml.MappingNode then
                (yml.DecodeSuite top1 (initialSuite conf)).1
              else
                initialSuite conf)
      ∧ (top1.Kind = yaml.MappingNode →
          conf1 = (yml.DecodeSuite top1 (initialSuite conf)).1.Config)
      ∧ (top1.Kind ≠ yaml.MappingNode → conf1 = conf))
    ∧ conf1 = s1.Config
    ∧ LoadSuiteFromData yml conf1 d2
        = (.returned (some { initialSuite s1.Config with
                              Cases := (yml.DecodeCases top2).1 }, none), s1.Config) := by
  obtain ⟨node1, top1, rest1, hU, hC⟩ := LoadSuiteFromData_returned yml conf conf1 d1 s1 h1
  by_cases hq : top1.Kind = yaml.SequenceNode
  · have hm : top1.Kind ≠ yaml.MappingNode := by rw [hq]; decide
    rw [LoadSuiteFromData_sequence yml conf d1 node1 top1 rest1 hU hC hq] at h1
    simp only [Prod.mk.injEq, Run.returned.injEq, Option.some.injEq, and_true] at h1
    obtain ⟨hs1, hc1⟩ := h1
    subst hs1
    subst hc1
    refine ⟨⟨node1, top1, rest1, hU, hC, ?_, fun h => absurd h hm, fun _ => rfl⟩, rfl, ?_⟩
    · rw [if_pos hq]; rfl
    · exact LoadSuiteFromData_sequence yml conf d2 node2 top2 rest2 hu hc hs
  · by_cases hm : top1.Kind = yaml.MappingNode
    · rw [LoadSuiteFromData_mapping yml conf d1 node1 top1 rest1 hU hC hm] at h1
      simp only [Prod.mk.injEq, Run.returned.injEq, Option.some.injEq, and_true] at h1
      obtain ⟨hs1, hc1⟩ := h1
      subst hs1
      subst hc1
      refine ⟨⟨node1, top1, rest1, hU, hC, ?_, fun _ => rfl, fun h => absurd hm h⟩, rfl, ?_⟩
      · rw [if_neg hq, if_pos hm]
      · exact LoadSuiteFromData_sequence yml _ d2 node2 top2 rest2 hu hc hs
    · rw [LoadSuiteFromData_other yml conf d1 node1 top1 rest1 hU hC hq hm] at h1
      simp only [Prod.mk.injEq, Run.returned.injEq, Option.some.injEq, and_true] at h1
      obtain ⟨hs1, hc1⟩ := h1
      subst hs1
      subst hc1
      refine ⟨⟨node1, top1, rest1, hU, hC, ?_, fun h => absurd h hm, fun _ => rfl⟩, rfl, ?_⟩
      · rw [if_neg hq, if_neg hm]
      · exact LoadSuiteFromData_sequence yml conf d2 node2 top2 rest2 hu hc hs

/-- A mapping document sets `doc-include-http` on a configuration that had it
off; the option is in the caller's configuration afterwards and in the suite
the document `[]` then loads as. -/
theorem loadSuite_config_propagates_witness :
    exampleConfig.Doc.IncludeHTTP = false
    ∧ LoadSuiteFromData exampleYaml exampleConfig
          "options: \x7bdoc-include-http: true\x7d"
        = (.returned (some exampleSuiteHTTP, none), exampleConfigHTTP)
    ∧ exampleConfigHTTP.Doc.IncludeHTTP = true
    ∧ exampleConfigHTTP = exampleSuiteHTTP.Config
    ∧ LoadSuiteFromData exampleYaml exampleConfigHTTP "[]"
        = (.returned (some { initialSuite exampleSuiteHTTP.Config with
                              Cases := (exampleYaml.DecodeCases
                                (.mk yaml.SequenceNode "" [])).1 }, none),
           exampleSuiteHTTP.Config) :=
  ⟨rfl, rfl, rfl,
    (loadSuite_config_propagates exampleYaml exampleConfig exampleConfigHTTP
      "options: \x7bdoc-include-http: true\x7d" "[]" exampleSuiteHTTP
      (.mk yaml.DocumentNode "" [.mk yaml.SequenceNode "" []])
      (.mk yaml.SequenceNode "" []) [] rfl rfl rfl rfl).2⟩

end LoadSuiteTheorems

/-! ## Theorems: `hunit/service/backend/rest/rest.go` -/

theorem Values.Get_Put_self (h : Values) (k v : GoString) :
    (h.Put k v).Get k = some [v] := by
  unfold Values.Put Values.Get
  induction h with
  | nil => simp
  | cons a t ih =>
    by_cases hk : a.1 = k <;> simp [List.filter_cons, hk]

theorem Values.Get_Put_other (h : Values) (k v j : GoString) (hj : k ≠ j) :
    (h.Put k v).Get j = h.Get j := by
  unfold Values.Put Values.Get
  induction h with
  | nil => simp [hj]
  | cons a t ih =>
    rcases a with ⟨ak, av⟩
    by_cases hk : ak = k
    · subst hk
      simpa [List.filter_cons, List.find?_cons, hj] using ih
    · by_cases haj : ak = j
      · subst haj
        simp [List.filter_cons, hk, List.find?_cons]
      · simpa [List.filter_cons, hk, List.find?_cons, haj] using ih

theorem Variables.Get_Put_same (vars : Variables) (k : GoString) (v : Any) :
    (vars.Put k v).Get k = some v := by
  unfold Variables.Put Variables.Get
  induction vars with
  | nil => simp
  | cons a t ih =>
    by_cases hk : a.1 = k <;> simp [List.filter_cons, hk]

/-- Overlaying declared headers none of which has the canonical key `K` leaves
the value under `K` as it was. -/
theorem overlay_Get_of_not_declared (canon : GoString → GoString) (K : GoString)
    (hs : List (GoString × GoString)) (x : RouterResponse)
    (hno : ∀ kv ∈ hs, canon kv.1 ≠ K) :
    (hs.foldl (fun x kv => x.SetHeader canon kv.1 kv.2) x).Header.Get K
      = x.Header.Get K := by
  induction hs generalizing x with
  | nil => rfl
  | cons a t ih =>
    have ha : canon a.1 ≠ K := hno a (List.mem_cons_self _ _)
    have ht : ∀ kv ∈ t, canon kv.1 ≠ K := fun kv hkv => hno kv (List.mem_cons_of_mem _ hkv)
    rw [List.foldl_cons, ih _ ht]
    exact Values.Get_Put_other _ _ _ _ ha

/-- Overlaying declared headers one of which has the canonical key `K` leaves a
declared value under `K`. -/
theorem overlay_Get_of_declared (canon : GoString → GoString) (K : GoString)
    (hs : List (GoString × GoString)) (x : RouterResponse)
    (hsome : ∃ kv ∈ hs, canon kv.1 = K) :
    ∃ kv ∈ hs, canon kv.1 = K ∧
      (hs.foldl (fun x kv => x.SetHeader canon kv.1 kv.2) x).Header.Get K
        = some [kv.2] := by
  induction hs generalizing x with
  | nil => simp at hsome
  | cons a t ih =>
    by_cases ht : ∃ kv ∈ t, canon kv.1 = K
    · obtain ⟨kv, hkv, hk, hget⟩ := ih (x.SetHeader canon a.1 a.2) ht
      exact ⟨kv, List.mem_cons_of_mem _ hkv, hk, by rw [List.foldl_cons]; exact hget⟩
    · have hno : ∀ kv ∈ t, canon kv.1 ≠ K := fun kv hkv hk => ht ⟨kv, hkv, hk⟩
      obtain ⟨kv, hkv, hk⟩ := hsome
      have hkva : kv = a := by
        rcases List.mem_cons.mp hkv with h | h
        · exact h
        · exact absurd hk (hno kv h)
      subst hkva
      refine ⟨kv, List.mem_cons_self _ _, hk, ?_⟩
      rw [List.foldl_cons, overlay_Get_of_not_declared canon K t _ hno, ← hk]
      exact Values.Get_Put_self _ _ _

/-- A Go string is non-empty exactly when its length in bytes is positive. -/
theorem utf8ByteSize_pos_of_ne_empty (e : GoString) (he : e ≠ "") :
    0 < e.utf8ByteSize := by
  rcases e with ⟨cs⟩
  cases cs with
  | nil => exact absurd rfl he
  | cons c t =>
    have hc := Char.utf8Size_pos c
    simp only [String.utf8ByteSize, String.utf8ByteSize.go]
    omega

/-- C4, refuted as stated: a template that declares `Content-Length: 0` with the
entity `hi` (two bytes) yields a response whose `Content-Length` header is the
declared `0`, not `2`. -/
theorem handleRequest_declared_content_length_wins :
    ∃ x, (handleRequest exampleLib false exampleRequest { Vars := [] } lengthEndpoint
            []).1 = .ok x
      ∧ x.Entity = some "hi"
      ∧ FormatInt (Int.ofNat ("hi" : GoString).utf8ByteSize) = "2"
      ∧ x.Header.Get "Content-Length" = some ["0"]
      ∧ x.Header.Get "Content-Length"
          ≠ some [FormatInt (Int.ofNat ("hi" : GoString).utf8ByteSize)] :=
  ⟨_, rfl, rfl, by decide, by decide, by decide⟩

/-- The response `handleRequest` builds when the form parses and the entity
interpolates to a non-empty text. -/
theorem handleRequest_ok (lib : Lib) (verbose : Bool) (req : HttpRequest)
    (cxt : Context) (endpoint : Endpoint) (r : EndpointResponse) (vars : Variables)
    (form : Values) (e : GoString)
    (hr : endpoint.Response = some r) (hf : lib.ParseForm req = .ok form)
    (hi : lib.Interpolate r.Entity
            (vars.Put "request" (handleRequest.scope lib req cxt form)) = .ok e)
    (hpos : e.utf8ByteSize > 0) :
    (handleRequest lib verbose req cxt endpoint vars).1
      = .ok (r.Headers.foldl (fun x kv => x.SetHeader lib.canon kv.1 kv.2)
          (((NewResponse r.Status).SetStringEntity lib.canon "binary/octet-stream"
            e).SetHeader lib.canon "Content-Length"
              (FormatInt (Int.ofNat e.utf8ByteSize)))) := by
  simp only [handleRequest, hr, hf, hi, hpos, if_true]

/-- C4, amended: for an endpoint with a response template and a request whose
interpolated entity `e` is non-empty, `handleRequest` returns a response with a
`Content-Length` header; its value is the decimal byte length of `e` when no
declared header has that canonical key, and a declared value when one has. -/
theorem handleRequest_content_length (lib : Lib) (verbose : Bool) (req : HttpRequest)
    (cxt : Context) (endpoint : Endpoint) (r : EndpointResponse) (vars : Variables)
    (form : Values) (e : GoString)
    (hr : endpoint.Response = some r) (hf : lib.ParseForm req = .ok form)
    (hi : lib.Interpolate r.Entity
            (vars.Put "request" (handleRequest.scope lib req cxt form)) = .ok e)
    (he : e ≠ "") :
    ∃ x, (handleRequest lib verbose req cxt endpoint vars).1 = .ok x
      ∧ ((∀ kv ∈ r.Headers, lib.canon kv.1 ≠ lib.canon "Content-Length") →
          x.Header.Get (lib.canon "Content-Length")
            = some [FormatInt (Int.ofNat e.utf8ByteSize)])
      ∧ ((∃ kv ∈ r.Headers, lib.canon kv.1 = lib.canon "Content-Length") →
          ∃ kv ∈ r.Headers, lib.canon kv.1 = lib.canon "Content-Length"
            ∧ x.Header.Get (lib.canon "Content-Length") = some [kv.2]) := by
  have hpos : e.utf8ByteSize > 0 := utf8ByteSize_pos_of_ne_empty e he
  refine ⟨_, handleRequest_ok lib verbose req cxt endpoint r vars form e hr hf hi hpos,
    ?_, ?_⟩
  · intro hno
    rw [overlay_Get_of_not_declared lib.canon _ r.Headers _ hno]
    exact Values.Get_Put_self _ _ _
  · intro hsome
    exact overlay_Get_of_declared lib.canon _ r.Headers _ hsome

/-- The endpoint that answers `hi` and declares only `X-Test` gets
`Content-Length: 2`. -/
theorem handleRequest_content_length_witness :
    ∃ x, (handleRequest exampleLib false exampleRequest { Vars := [] } exampleEndpoint
            []).1 = .ok x
      ∧ ((∀ kv ∈ [(("X-Test", "1") : GoString × GoString)],
            exampleLib.canon kv.1 ≠ exampleLib.canon "Content-Length") →
          x.Header.Get (exampleLib.canon "Content-Length")
            = some [FormatInt (Int.ofNat ("hi" : GoString).utf8ByteSize)])
      ∧ ((∃ kv ∈ [(("X-Test", "1") : GoString × GoString)],
            exampleLib.canon kv.1 = exampleLib.canon "Content-Length") →
          ∃ kv ∈ [(("X-Test", "1") : GoString × GoString)],
            exampleLib.canon kv.1 = exampleLib.canon "Content-Length"
            ∧ x.Header.Get (exampleLib.canon "Content-Length") = some [kv.2]) :=
  handleRequest_content_length exampleLib false exampleRequest { Vars := [] }
    exampleEndpoint { Status := 200, Headers := [("X-Test", "1")], Entity := "hi" } []
    [] "hi" rfl rfl rfl (by decide)

/-- C5, on the code: when the endpoint has a response template and the form
parses, the map `vars` that was passed in holds, after the call, this
request's scope under `"request"`, whatever it held before. -/
theorem handleRequest_writes_shared_vars (lib : Lib) (verbose : Bool)
    (req : HttpRequest) (cxt : Context) (endpoint : Endpoint) (r : EndpointResponse)
    (vars : Variables) (form : Values)
    (hr : endpoint.Response = some r) (hf : lib.ParseForm req = .ok form) :
    (handleRequest lib verbose req cxt endpoint vars).2.1.Get "request"
      = some (handleRequest.scope lib req cxt form) := by
  simp only [handleRequest, hr, hf]
  cases lib.Interpolate r.Entity
      (Variables.Put vars "request" (handleRequest.scope lib req cxt form)) <;>
    exact Variables.Get_Put_same _ _ _

/-- The service built by `New` has no `"request"` variable; after one request
with the capture `id = 7` the shared map holds that capture. -/
theorem handleRequest_writes_shared_vars_witness :
    (New [exampleEndpoint]).vars.Get "request" = none
    ∧ (handleRequest exampleLib false exampleRequest { Vars := [("id", "7")] }
          exampleEndpoint (New [exampleEndpoint]).vars).2.1.Get "request"
        = some (handleRequest.scope exampleLib exampleRequest { Vars := [("id", "7")] } []) :=
  ⟨rfl, handleRequest_writes_shared_vars exampleLib false exampleRequest
    { Vars := [("id", "7")] } exampleEndpoint
    { Status := 200, Headers := [("X-Test", "1")], Entity := "hi" }
    (New [exampleEndpoint]).vars [] rfl rfl⟩

/-- The trace block hands the request on unchanged when tracing is off, when no
body is declared, or when the body can be read. -/
theorem routeRequest.trace_passes (verbose : Bool) (req : HttpRequest)
    (h : verbose = false ∨ req.ContentLength ≤ 0 ∨ ∃ data, req.Body = .ok data) :
    (routeRequest.trace verbose req).2 = some req := by
  unfold routeRequest.trace
  cases verbose with
  | false => rfl
  | true =>
    simp only [if_true]
    by_cases hlen : req.ContentLength > 0
    · rcases h with h | h | ⟨data, h⟩
      · exact absurd h (by decide)
      · omega
      · cases req
        simp_all
    · simp [hlen]

/-- What `handleRequest` returns and what it leaves in `vars` do not depend on
`debug.VERBOSE`. -/
theorem handleRequest_verbose (lib : Lib) (req : HttpRequest) (cxt : Context)
    (endpoint : Endpoint) (vars : Variables) :
    (handleRequest lib true req cxt endpoint vars).1
        = (handleRequest lib false req cxt endpoint vars).1
    ∧ (handleRequest lib true req cxt endpoint vars).2.1
        = (handleRequest lib false req cxt endpoint vars).2.1 := by
  unfold handleRequest
  cases endpoint.Response with
  | none => exact ⟨rfl, rfl⟩
  | some r =>
    cases hf : lib.ParseForm req with
    | error err => exact ⟨rfl, rfl⟩
    | ok form =>
      simp only
      cases lib.Interpolate r.Entity
          (Variables.Put vars "request" (handleRequest.scope lib req cxt form)) <;>
        exact ⟨rfl, rfl⟩

/-- The liveness check comes before routing: when the trace block does not stop
the request, a `GET /_instaunit/status` is answered with status 200 and the
`Server` and `Content-Type` headers, nothing is written to the body, the router
is not asked and the shared variables are untouched, whatever the routes. -/
theorem routeRequest_status_unshadowed (lib : Lib) (verbose : Bool) (s : restService)
    (rsp : ResponseWriter) (req : HttpRequest)
    (hm : req.Method = "GET") (hp : req.Path = "/_instaunit/status")
    (h : verbose = false ∨ req.ContentLength ≤ 0 ∨ ∃ data, req.Body = .ok data) :
    (s.routeRequest lib verbose rsp req).rsp
        = .returned { Header := (rsp.Header.SetHeader lib.canon "Server"
                        "HUnit/1").SetHeader lib.canon "Content-Type"
                        "text/plain; charset=utf-8"
                      Status := some 200
                      Body := rsp.Body }
    ∧ (s.routeRequest lib verbose rsp req).routed = false
    ∧ (s.routeRequest lib verbose rsp req).vars = s.vars := by
  have ht := routeRequest.trace_passes verbose req h
  unfold restService.routeRequest
  rcases hq : routeRequest.trace verbose req with ⟨out, r⟩
  rw [hq] at ht
  simp only at ht
  subst ht
  simp [hm, hp, statusMethod, statusPath]

/-- Tracing does not change the response, the shared variables or whether the
router is asked, when the trace block does not stop the request. -/
theorem routeRequest_verbose_irrelevant (lib : Lib) (s : restService)
    (rsp : ResponseWriter) (req : HttpRequest)
    (h : req.ContentLength ≤ 0 ∨ ∃ data, req.Body = .ok data) :
    (s.routeRequest lib true rsp req).rsp = (s.routeRequest lib false rsp req).rsp
    ∧ (s.routeRequest lib true rsp req).vars = (s.routeRequest lib false rsp req).vars
    ∧ (s.routeRequest lib true rsp req).routed
        = (s.routeRequest lib false rsp req).routed := by
  have ht := routeRequest.trace_passes true req (Or.inr h)
  have hf := routeRequest.trace_passes false req (Or.inl rfl)
  unfold restService.routeRequest
  rcases hq : routeRequest.trace true req with ⟨out, r⟩
  rcases hq2 : routeRequest.trace false req with ⟨out2, r2⟩
  rw [hq] at ht
  rw [hq2] at hf
  simp only at ht hf
  subst ht
  subst hf
  simp only
  by_cases hst : req.Method = statusMethod ∧ req.Path = statusPath
  · simp only [hst, and_self, if_true]
  · simp only [hst, if_false]
    unfold restService.handle
    cases lib.Dispatch s.router req with
    | direct res =>
      cases res <;> simp
    | handler e cxt =>
      have hv := handleRequest_verbose lib req cxt e s.vars
      rcases h1 : handleRequest lib true req cxt e s.vars with ⟨r1, v1, o1⟩
      rcases h2 : handleRequest lib false req cxt e s.vars with ⟨r2, v2, o2⟩
      rw [h1, h2] at hv
      simp only at hv
      obtain ⟨hr, hvars⟩ := hv
      subst hr
      subst hvars
      cases r1 <;> simp [h1, h2]

/-- C3, on the code: with `debug.VERBOSE` set, a `GET /_instaunit/status` whose
declared body cannot be read makes `routeRequest` return from its trace block:
the response writer is left as it was, without status and without the `Server`
header. -/
theorem routeRequest_status_trace_abort :
    ((New [exampleEndpoint]).routeRequest exampleLib true ResponseWriter.fresh
        brokenProbe).rsp = .returned ResponseWriter.fresh
    ∧ ResponseWriter.fresh.Status = none
    ∧ ResponseWriter.fresh.Header.Get "Server" = none
    ∧ ((New [exampleEndpoint]).routeRequest exampleLib false ResponseWriter.fresh
        brokenProbe).rsp
      = .returned { Header := [("Server", ["HUnit/1"]),
                               ("Content-Type", ["text/plain; charset=utf-8"])]
                    Status := some 200
                    Body := "" } := by
  refine ⟨by decide, by decide, by decide, by decide⟩

/-- C8, on the code: the same request to `/hello`, whose declared body cannot be
read, is answered `200` with the entity `hi` when `debug.VERBOSE` is off and is
not answered at all when it is on. -/
theorem routeRequest_verbose_changes_response :
    ((New [exampleEndpoint]).routeRequest exampleLib false ResponseWriter.fresh
        brokenRequest).rsp
      = .returned { Header := [("Content-Type", ["binary/octet-stream"]),
                               ("Content-Length", ["2"]), ("X-Test", ["1"])]
                    Status := some 200
                    Body := "hi" }
    ∧ ((New [exampleEndpoint]).routeRequest exampleLib true ResponseWriter.fresh
        brokenRequest).rsp = .returned ResponseWriter.fresh
    ∧ ((New [exampleEndpoint]).routeRequest exampleLib true ResponseWriter.fresh
        brokenRequest).rsp
      ≠ ((New [exampleEndpoint]).routeRequest exampleLib false ResponseWriter.fresh
        brokenRequest).rsp := by
  refine ⟨by decide, by decide, by decide⟩

end HUnit
